import Mathlib

/-!
Verification development for the session/cart/orchestration core of an
e-commerce chatbot backend.  The definitions below are shallow embeddings of
the Python source files `backend/agents/sales_agent.py`,
`backend/agents/inventory_agent.py`, `backend/agents/orchestrator.py`,
`backend/services/context_manager.py` and `backend/services/channel_adapters.py`.
Python floats are modelled as rationals, Python dicts of heterogeneous shape as
a small JSON value type, and the SQL-backed session table as an in-memory list
of session rows threaded through every operation.
-/

/-! ## Keyword intent classifier (`SalesAgent._detect_intent`) -/

/-- Python `str.lower()` (ASCII, which covers every keyword in the table).
Implemented on the underlying character list so that it reduces in the
kernel. -/
def lowerStr (s : String) : String := ⟨s.data.map Char.toLower⟩

/-- Substring scan: does `needle` occur as a contiguous run inside the second
list? -/
def occursIn (needle : List Char) : List Char → Bool
  | [] => needle.isEmpty
  | c :: rest => needle.isPrefixOf (c :: rest) || occursIn needle rest

/-- Python `kw in message`: case-sensitive substring test on the already
lowercased message. -/
def containsKw (msg kw : String) : Bool := occursIn kw.toList msg.toList

/-- Keyword list of the cart-viewing branch of `_detect_intent`. -/
def cartKeywords : List String :=
  ["cart", "basket", "bag", "what did i add", "show cart", "view cart", "my items"]

/-- Keyword list of the purchase branch of `_detect_intent`. -/
def purchaseKeywords : List String := ["buy", "purchase", "checkout", "order"]

/-- Keyword list of the browsing branch of `_detect_intent`. -/
def browsingKeywords : List String := ["looking", "browse", "show", "find", "search", "need"]

/-- Keyword list of the help/question branch of `_detect_intent`. -/
def helpKeywords : List String :=
  ["help", "question", "how", "what", "where", "when", "available", "stock"]

/-- Keyword list of the greeting branch of `_detect_intent`. -/
def greetingKeywords : List String := ["hi", "hello", "hey", "good morning", "good afternoon"]

/-- Keyword list of the complaint branch of `_detect_intent`. -/
def complaintKeywords : List String :=
  ["problem", "issue", "wrong", "broken", "return", "refund"]

/-- `SalesAgent._detect_intent`: lowercase the message, then test the keyword
sets in the fixed source order, returning the label of the first set with a
substring hit, else `"general"`. -/
def detectIntent (message : String) : String :=
  let m := lowerStr message
  if cartKeywords.any (fun w => containsKw m w) then "view_cart"
  else if purchaseKeywords.any (fun w => containsKw m w) then "purchase_intent"
  else if browsingKeywords.any (fun w => containsKw m w) then "browsing"
  else if helpKeywords.any (fun w => containsKw m w) then "needs_help"
  else if greetingKeywords.any (fun w => containsKw m w) then "greeting"
  else if complaintKeywords.any (fun w => containsKw m w) then "complaint"
  else "general"

/-- Spec-side formulation of the classifier (section 4.1 of the design
document): an ordered table of (label, keyword set) pairs evaluated by first
match, defaulting to `"general"`.  Used to compare `detectIntent` against the
documented priority order. -/
def classifyByTable (m : String) : List (String × List String) → String
  | [] => "general"
  | (label, kws) :: rest =>
      if kws.any (fun w => containsKw m w) then label else classifyByTable m rest

/-- The documented priority table: cart-viewing, purchase, browsing,
help/question, greeting, complaint. -/
def priorityTable : List (String × List String) :=
  [("view_cart", cartKeywords), ("purchase_intent", purchaseKeywords),
   ("browsing", browsingKeywords), ("needs_help", helpKeywords),
   ("greeting", greetingKeywords), ("complaint", complaintKeywords)]

/-! ## A small JSON value universe

Worker agents exchange Python dicts of heterogeneous shape; the orchestrator
reads them with `dict.get`.  They are embedded as a small JSON value type with
assoc-list objects. -/

inductive Json where
  | null
  | bool (b : Bool)
  | num (q : ℚ)
  | str (s : String)
  | arr (elems : List Json)
  | obj (fields : List (String × Json))

/-- Field lookup on an object; `none` on any other shape (Python would raise,
but the orchestrator only applies `.get` to dicts). -/
def Json.lookup : Json → String → Option Json
  | .obj fields, k => (fields.find? (fun f => f.1 == k)).map (fun f => f.2)
  | _, _ => none

/-- Python `d.get(k, default)`. -/
def Json.getD (j : Json) (k : String) (d : Json) : Json := (j.lookup k).getD d

/-- Python truthiness of a JSON value. -/
def Json.isTruthy : Json → Bool
  | .null => false
  | .bool b => b
  | .num q => q != 0
  | .str s => s != ""
  | .arr elems => !elems.isEmpty
  | .obj fields => !fields.isEmpty

/-- Python truthiness of `d.get(k)` where the key may be absent. -/
def optTruthy : Option Json → Bool
  | none => false
  | some j => j.isTruthy

/-- Array payload of a field, Python `d.get(k, [])` when the stored value is a
list. -/
def Json.getArrD (j : Json) (k : String) : List Json :=
  match j.lookup k with
  | some (.arr elems) => elems
  | _ => []

/-! ## Data model (`backend/models/models.py` restricted to the columns the
core reads) -/

/-- Product row: the columns consumed by the cart engine and the adapters.
Prices are Python floats, modelled as rationals. -/
structure Product where
  id : Int
  name : String
  price : ℚ
  original_price : Option ℚ
  category : String
  brand : String
  rating : Option ℚ
  images : List String
deriving Repr, DecidableEq

/-- One cart line as stored in the session row: `{"product_id", "quantity",
"added_at"}`.  `added_at` is the `datetime.now().isoformat()` string captured
at insertion. -/
structure CartLine where
  product_id : Int
  quantity : Int
  added_at : String
deriving Repr, DecidableEq

/-- One entry of the conversation message log. -/
structure ChatEntry where
  role : String
  content : String
  timestamp : String
deriving Repr, DecidableEq

/-- A `ChatSession` row. -/
structure Session where
  session_id : String
  customer_id : Option Int
  channel : String
  context : Json
  messages : List ChatEntry
  cart : List CartLine
  is_active : Bool

/-- The session table, threaded explicitly through every `ContextManager`
operation. -/
abbrev SessionStore := List Session

/-- `db.query(ChatSession).filter(session_id == sid).first()`. -/
def findSession (store : SessionStore) (sid : String) : Option Session :=
  store.find? (fun s => s.session_id == sid)

/-- `update_session(..., cart=...)`: fetch the first row with the given id and
overwrite its cart column, leaving every other row and column untouched. -/
def setCartFirst : SessionStore → String → List CartLine → SessionStore
  | [], _, _ => []
  | s :: rest, sid, c =>
      if s.session_id == sid then { s with cart := c } :: rest
      else s :: setCartFirst rest sid c

/-- `ContextManager.update_session` restricted to the cart column: returns the
success flag together with the written-back store. -/
def updateSessionCart (store : SessionStore) (sid : String) (c : List CartLine) :
    Bool × SessionStore :=
  match findSession store sid with
  | none => (false, store)
  | some _ => (true, setCartFirst store sid c)

/-! ## Cart engine (`backend/services/context_manager.py`) -/

/-- Result shape shared by `add_to_cart`, `remove_from_cart` and
`update_cart_quantity`: either the session-not-found failure dict or the
success dict `{"success", "cart", "cart_count", "total_items"}`. -/
inductive CartOpResult where
  | notFound (message : String)
  | ok (success : Bool) (cart : List CartLine) (cart_count : Nat) (total_items : Int)
deriving Repr, DecidableEq

/-- `success` flag of a cart-operation result (`False` on the not-found
dict). -/
def CartOpResult.success : CartOpResult → Bool
  | .notFound _ => false
  | .ok b _ _ _ => b

/-- Cart payload of a cart-operation result. -/
def CartOpResult.cartLines : CartOpResult → List CartLine
  | .notFound _ => []
  | .ok _ c _ _ => c

/-- `existing_item["quantity"] += quantity`: bump the first line matching the
product id, leaving the rest of the list unchanged. -/
def bumpFirst : List CartLine → Int → Int → List CartLine
  | [], _, _ => []
  | l :: rest, pid, qty =>
      if l.product_id == pid then { l with quantity := l.quantity + qty } :: rest
      else l :: bumpFirst rest pid qty

/-- Body of `add_to_cart` acting on the cart list: increment the first
matching line if one exists, else append a fresh line stamped `now`. -/
def addCartItem (cart : List CartLine) (pid qty : Int) (now : String) : List CartLine :=
  if cart.any (fun it => it.product_id == pid) then bumpFirst cart pid qty
  else cart ++ [⟨pid, qty, now⟩]

/-- `ContextManager.add_to_cart`.  `now` stands for
`datetime.now().isoformat()`. -/
def addToCart (store : SessionStore) (sid : String) (pid qty : Int) (now : String) :
    CartOpResult × SessionStore :=
  match findSession store sid with
  | none => (.notFound "Session not found", store)
  | some s =>
      let cart := addCartItem s.cart pid qty now
      let (succ, store') := updateSessionCart store sid cart
      (.ok succ cart cart.length ((cart.map (fun it => it.quantity)).sum), store')

/-- `ContextManager.remove_from_cart`: keep every line whose product id
differs. -/
def removeFromCart (store : SessionStore) (sid : String) (pid : Int) :
    CartOpResult × SessionStore :=
  match findSession store sid with
  | none => (.notFound "Session not found", store)
  | some s =>
      let cart := s.cart.filter (fun it => !(it.product_id == pid))
      let (succ, store') := updateSessionCart store sid cart
      (.ok succ cart cart.length ((cart.map (fun it => it.quantity)).sum), store')

/-- Loop body of `update_cart_quantity`: at the first line matching the
product id, delete it when the new quantity is ≤ 0 and overwrite it
otherwise, then stop (`break`). -/
def setQtyFirst : List CartLine → Int → Int → List CartLine
  | [], _, _ => []
  | l :: rest, pid, qty =>
      if l.product_id == pid then
        if qty ≤ 0 then rest else { l with quantity := qty } :: rest
      else l :: setQtyFirst rest pid qty

/-- `ContextManager.update_cart_quantity`. -/
def updateCartQuantity (store : SessionStore) (sid : String) (pid qty : Int) :
    CartOpResult × SessionStore :=
  match findSession store sid with
  | none => (.notFound "Session not found", store)
  | some s =>
      let cart := setQtyFirst s.cart pid qty
      let (succ, store') := updateSessionCart store sid cart
      (.ok succ cart cart.length ((cart.map (fun it => it.quantity)).sum), store')

/-! ## Priced cart view (`ContextManager.get_cart`) -/

/-- Round-half-to-even on rationals, the semantics of Python `round` (on the
rational reading of the float inputs; no tie arises in any instance verified
below). -/
def roundHalfEven (x : ℚ) : ℤ :=
  let f := ⌊x⌋
  let frac := x - f
  if frac < 1/2 then f
  else if 1/2 < frac then f + 1
  else if f % 2 = 0 then f else f + 1

/-- Python `round(x, 2)`. -/
def round2 (x : ℚ) : ℚ := (roundHalfEven (x * 100) : ℚ) / 100

/-- One priced line of the cart view. -/
structure CartEntry where
  product_id : Int
  name : String
  price : ℚ
  brand : String
  image : Option String
  quantity : Int
  subtotal : ℚ
deriving Repr, DecidableEq

/-- The priced entry built from a resolved product and its cart line. -/
def mkCartEntry (p : Product) (it : CartLine) : CartEntry :=
  { product_id := p.id, name := p.name, price := p.price, brand := p.brand,
    image := p.images.head?, quantity := it.quantity,
    subtotal := p.price * (it.quantity : ℚ) }

/-- The `cart_with_details` accumulation loop of `get_cart`: look each line's
product up in the catalog, price the line when it resolves, skip it
otherwise. -/
def cartWithDetails (catalog : List Product) : List CartLine → List CartEntry
  | [] => []
  | it :: rest =>
      match catalog.find? (fun p => p.id == it.product_id) with
      | some p => mkCartEntry p it :: cartWithDetails catalog rest
      | none => cartWithDetails catalog rest

/-- Result shape of `get_cart`: the session-not-found failure dict or the
success dict `{"success": True, "cart", "cart_count", "total_items",
"subtotal"}`. -/
inductive CartViewResult where
  | notFound (message : String)
  | ok (cart : List CartEntry) (cart_count : Nat) (total_items : Int) (subtotal : ℚ)
deriving Repr, DecidableEq

/-- `success` flag of a `get_cart` result. -/
def CartViewResult.success : CartViewResult → Bool
  | .notFound _ => false
  | .ok _ _ _ _ => true

/-- `ContextManager.get_cart`: a read-only priced projection of the cart
against the product catalog.  The store is threaded through like in the
mutating operations so that the absence of any write is a provable fact
rather than a typing accident. -/
def getCart (catalog : List Product) (store : SessionStore) (sid : String) :
    CartViewResult × SessionStore :=
  match findSession store sid with
  | none => (.notFound "Session not found", store)
  | some s =>
      if s.cart.isEmpty then (.ok [] 0 0 0, store)
      else
        let details := cartWithDetails catalog s.cart
        let total := (details.map (fun e => e.subtotal)).sum
        (.ok details details.length ((details.map (fun e => e.quantity)).sum)
          (round2 total), store)

/-! ## Inventory worker (`InventoryAgent.execute`)

The per-product availability check (`_check_product_availability`) queries the
product table, walks the location inventory and collects alternatives; its
result is an opaque dict from the point of view of the claims below, so it is
passed in as a parameter `check (product_id) (quantity_needed)
(customer_location)`. -/

/-- `InventoryAgent.execute`: the success envelope carries the availability
map keyed by `str(product_id)`; the no-products failure envelope carries an
empty map.  `checked_at` stands for `datetime.now().isoformat()`. -/
def inventoryExecute (check : Int → Int → String → Json) (product_ids : List Int)
    (quantities : List (String × Int)) (customer_location : String)
    (checked_at : String) : Json :=
  if product_ids.isEmpty then
    .obj [("success", .bool false), ("message", .str "No products specified"),
          ("availability", .obj [])]
  else
    .obj [("success", .bool true),
          ("availability", .obj (product_ids.map (fun pid =>
            (toString pid,
             check pid ((List.lookup (toString pid) quantities).getD 1) customer_location)))),
          ("checked_at", .str checked_at)]

/-! ## Response synthesizer (`Orchestrator._synthesize_response`) -/

/-- Output of `SalesAgent.execute` as consumed downstream. -/
structure SalesOutput where
  response : String
  intent : String
  suggestions : List String
  next_actions : List String
  requires_worker_agents : List String

/-- The `worker_results` dict: at most one partial result per worker name. -/
structure WorkerResults where
  recommendations : Option Json
  inventory : Option Json
  loyalty : Option Json
  payment : Option Json

/-- Customer info attached to the turn context by `handle_conversation`. -/
structure CustomerInfo where
  name : String
  loyalty_tier : String
  preferences : Json
  loyalty_points : Int

/-- The per-turn context assembled by `handle_conversation`. -/
structure TurnContext where
  message : String
  customer_id : Option Int
  session_id : Option String
  cart_items : List Json
  customer_info : Option CustomerInfo

/-- One entry of the derived action list. -/
structure NextAction where
  type : String
  label : String
  description : String
deriving Repr, DecidableEq

/-- `Orchestrator._determine_next_actions`. -/
def determineNextActions (intent : String) (wr : WorkerResults) : List NextAction :=
  if intent == "browsing" then
    if optTruthy wr.recommendations then
      [⟨"view_product", "View Details", "See more about these items"⟩,
       ⟨"add_to_cart", "Add to Cart", "Add items you like"⟩]
    else []
  else if intent == "purchase_intent" then
    (if optTruthy wr.inventory then
      [⟨"proceed_checkout", "Proceed to Checkout", "Complete your purchase"⟩]
     else []) ++
    (match wr.payment with
     | some p => if optTruthy (p.lookup "success") then
          [⟨"view_order", "View Order", "See your order details"⟩]
        else []
     | none => [])
  else []

/-- The `UnifiedResponse` envelope built by `_synthesize_response`; optional
fields are the keys only added when the corresponding worker ran and
succeeded. -/
structure UnifiedResponse where
  success : Bool
  message : String
  intent : String
  suggestions : List String
  timestamp : String
  recommendations : Option (List Json)
  total_recommendations : Option Json
  inventory_status : Option Json
  loyalty_info : Option Json
  payment_result : Option Json
  cart : Option CartViewResult
  actions : List NextAction

/-- `Orchestrator._synthesize_response`.  `now` stands for
`datetime.now().isoformat()`. -/
def synthesizeResponse (catalog : List Product) (store : SessionStore)
    (sales : SalesOutput) (wr : WorkerResults) (ctx : TurnContext)
    (now : String) : UnifiedResponse :=
  let base : UnifiedResponse :=
    { success := true, message := sales.response, intent := sales.intent,
      suggestions := sales.suggestions, timestamp := now,
      recommendations := none, total_recommendations := none,
      inventory_status := none, loyalty_info := none, payment_result := none,
      cart := none, actions := [] }
  let r := match wr.recommendations with
    | some recData =>
        if optTruthy (recData.lookup "success") then
          { base with
            recommendations := some ((recData.getArrD "recommendations").take 3),
            total_recommendations := some (recData.getD "total_items" (.num 0)) }
        else base
    | none => base
  let r := match wr.inventory with
    | some invData =>
        if optTruthy (invData.lookup "success") then
          let status := (invData.getD "data" (.obj [])).getD "availability" (.obj [])
          { r with inventory_status := some status }
        else r
    | none => r
  let r := match wr.loyalty with
    | some loyaltyData =>
        if optTruthy (loyaltyData.lookup "success") then
          { r with loyalty_info := some (.obj
              [("tier", loyaltyData.getD "loyalty_tier" .null),
               ("points", loyaltyData.getD "loyalty_points" .null),
               ("benefits", loyaltyData.getD "benefits" .null)]) }
        else r
    | none => r
  let r := match wr.payment with
    | some paymentData => { r with payment_result := some paymentData }
    | none => r
  let r := match ctx.session_id with
    | some sid =>
        if sid == "" then r
        else
          let cartData := (getCart catalog store sid).1
          if cartData.success then { r with cart := some cartData } else r
    | none => r
  { r with actions := determineNextActions sales.intent wr }

/-! ## Orchestrator boundary (`Orchestrator.execute`,
`Orchestrator.handle_conversation`)

Failure of a Python call is modelled with `Except String`: `.error e` is a
raised exception carrying `str(e)`.  The try-block body of `execute` (sales
agent call, worker dispatch, synthesis) is passed in as the fallible
`pipeline`; the customer lookup that `handle_conversation` performs *before*
calling `execute` is passed in as the fallible `fetchCustomer`. -/

/-- What the caller of `execute` receives: either the synthesized response or
the catch-all failure dict `{"success": False, "response": <apology>,
"error": str(e)}`. -/
inductive TurnEnvelope where
  | normal (r : UnifiedResponse)
  | failure (response : String) (error : String)

/-- The generic apology of the orchestrator catch-all. -/
def apologyMessage : String :=
  "I\x27m having trouble processing that right now. Let me help you differently."

/-- `Orchestrator.execute`: run the pipeline under the catch-all. -/
def orchestratorExecute (pipeline : TurnContext → Except String UnifiedResponse)
    (ctx : TurnContext) : TurnEnvelope :=
  match pipeline ctx with
  | .ok r => .normal r
  | .error e => .failure apologyMessage e

/-- `Orchestrator.handle_conversation`: build the context, fetch the customer
record when a (truthy) customer id is supplied — *outside* any try block, so
a store failure there is re-raised — then call `execute`. -/
def handleConversation (fetchCustomer : Int → Except String (Option CustomerInfo))
    (pipeline : TurnContext → Except String UnifiedResponse) (message : String)
    (customer_id : Option Int) (session_id : Option String)
    (cart_items : List Json) : Except String TurnEnvelope :=
  let base : TurnContext :=
    { message := message, customer_id := customer_id, session_id := session_id,
      cart_items := cart_items, customer_info := none }
  match customer_id with
  | none => .ok (orchestratorExecute pipeline base)
  | some cid =>
      if cid == 0 then .ok (orchestratorExecute pipeline base)
      else
        match fetchCustomer cid with
        | .error e => .error e
        | .ok none => .ok (orchestratorExecute pipeline base)
        | .ok (some info) =>
            .ok (orchestratorExecute pipeline { base with customer_info := some info })

/-! ## Channel adapters (`backend/services/channel_adapters.py`)

Only the recommendation formatters and the adapter factory are embedded; the
recommendation entries reaching them are the dicts produced by the
recommendation worker, read with `.get` and optional defaults. -/

/-- `BaseChannelAdapter._truncate_text`. -/
def truncateText (t : String) (maxLen : Nat) : String :=
  if t.length ≤ maxLen then t else (t.take (maxLen - 3)) ++ "..."

/-- A recommendation entry as the adapters read it. -/
structure Recommendation where
  product_id : Int
  image : Option String
  name : String
  brand : Option String
  price : ℚ
  original_price : Option ℚ
  rating : Option ℚ
  reason : String
  in_stock : Bool

/-- A web product card (`WebChatAdapter.format_recommendations` entry). -/
structure WebProductCard where
  product_id : Int
  image : String
  name : String
  brand : Option String
  price : ℚ
  original_price : Option ℚ
  rating : Option ℚ
  reason : String
  in_stock : Bool
  actions : List (String × String)

/-- `WebChatAdapter.format_recommendations`: product cards over
`recommendations[:6]`. -/
def webFormatRecommendations (recs : List Recommendation) : List WebProductCard :=
  (recs.take 6).map (fun rec =>
    { product_id := rec.product_id, image := rec.image.getD "/placeholder.jpg",
      name := rec.name, brand := rec.brand, price := rec.price,
      original_price := rec.original_price, rating := rec.rating,
      reason := truncateText rec.reason 100, in_stock := rec.in_stock,
      actions := [("view_details", "View Details"), ("add_to_cart", "Add to Cart")] })

/-- One numbered text block of the WhatsApp recommendation rendering. -/
def whatsappRecBlock (i : Nat) (rec : Recommendation) : String :=
  toString i ++ ". *" ++ rec.name ++ "*\n   $" ++ toString rec.price ++ " | " ++
    rec.brand.getD "" ++ "\n   " ++ truncateText rec.reason 80 ++ "\n\n"

/-- `WhatsAppAdapter.format_recommendations`: header plus numbered text
blocks over `recommendations[:3]`. -/
def whatsappFormatRecommendations (recs : List Recommendation) : String :=
  "✨ *Recommended Products:*\n\n" ++
    String.join (((recs.take 3).enumFrom 1).map (fun p => whatsappRecBlock p.1 p.2))

/-- `InStoreAdapter._generate_aisle_location`. -/
def aisleLocation (pid : Int) : String :=
  (List.lookup pid
    [((1 : Int), "Aisle 3, Section B"), (2, "Aisle 5, Section A"),
     (3, "Aisle 2, Section C")]).getD "Ask Associate"

/-- A kiosk tile (`InStoreAdapter.format_recommendations` entry). -/
structure KioskTile where
  product_id : Int
  name : String
  price : ℚ
  image : Option String
  location : String
  available_now : Bool

/-- `InStoreAdapter.format_recommendations`: large tiles over
`recommendations[:4]`. -/
def instoreFormatRecommendations (recs : List Recommendation) : List KioskTile :=
  (recs.take 4).map (fun rec =>
    { product_id := rec.product_id, name := rec.name, price := rec.price,
      image := rec.image, location := aisleLocation rec.product_id,
      available_now := rec.in_stock })

/-- A compact mobile card (`MobileAdapter.format_recommendations` entry). -/
structure MobileCard where
  product_id : Int
  image : Option String
  name : String
  price : ℚ
  rating : Option ℚ
  quick_add : Bool

/-- `MobileAdapter.format_recommendations`: every supplied recommendation,
name truncated to 40 characters. -/
def mobileFormatRecommendations (recs : List Recommendation) : List MobileCard :=
  recs.map (fun rec =>
    { product_id := rec.product_id, image := rec.image,
      name := truncateText rec.name 40, price := rec.price,
      rating := rec.rating, quick_add := true })

/-- The closed set of adapters. -/
inductive AdapterKind where
  | web
  | whatsapp
  | instore
  | mobile
deriving Repr, DecidableEq

/-- `get_channel_adapter`: dictionary lookup on `channel.lower()` with
`WebChatAdapter` as the fallback. -/
def getChannelAdapter (channel : String) : AdapterKind :=
  (List.lookup (lowerStr channel)
    [("web", AdapterKind.web), ("whatsapp", AdapterKind.whatsapp),
     ("instore", AdapterKind.instore), ("mobile", AdapterKind.mobile)]).getD .web

/-! ## Spec-side reformulations and concrete sample data -/

/-- Spec-side description of one `get_cart` line: the priced entry when the
line's product resolves in the catalog, `none` otherwise. -/
def resolveLine (catalog : List Product) (it : CartLine) : Option CartEntry :=
  (catalog.find? (fun p => p.id == it.product_id)).map (fun p => mkCartEntry p it)

/-- A per-product availability dict as `_check_product_availability` returns
it (its exact payload is irrelevant to the envelope claims). -/
def sampleAvailability : Json :=
  .obj [("product_id", .num 1), ("available", .bool true), ("total_stock", .num 5)]

/-- A concrete stand-in for `_check_product_availability`. -/
def sampleCheck : Int → Int → String → Json := fun _ _ _ => sampleAvailability

/-- The inventory worker envelope for a successful single-product check. -/
def sampleInventoryResult : Json :=
  inventoryExecute sampleCheck [1] [] "online" "2024-01-01T00:00:00"

/-- A concrete sales-agent output for a help turn. -/
def sampleSales : SalesOutput :=
  { response := "Let me check that for you", intent := "needs_help",
    suggestions := ["Talk to Specialist"],
    next_actions := ["check_inventory", "get_product_details"],
    requires_worker_agents := ["inventory"] }

/-- A concrete turn context without a session. -/
def sampleCtx : TurnContext :=
  { message := "is product 1 in stock", customer_id := none, session_id := none,
    cart_items := [], customer_info := none }

/-- Worker results of a turn in which only the inventory worker ran. -/
def sampleWorkerResults : WorkerResults :=
  { recommendations := none, inventory := some sampleInventoryResult,
    loyalty := none, payment := none }

/-- A concrete synthesized response, used as a successful pipeline output. -/
def sampleOkResponse : UnifiedResponse :=
  { success := true, message := "ok", intent := "general", suggestions := [],
    timestamp := "t", recommendations := none, total_recommendations := none,
    inventory_status := none, loyalty_info := none, payment_result := none,
    cart := none, actions := [] }

/-- A session with an empty cart. -/
def freshSession : Session :=
  { session_id := "s1", customer_id := none, channel := "web",
    context := .obj [], messages := [], cart := [], is_active := true }

/-- A one-session store with an empty cart. -/
def freshStore : SessionStore := [freshSession]

/-- A session whose cart already holds product 1 with quantity 7. -/
def preloadedSession : Session :=
  { session_id := "s1", customer_id := none, channel := "web",
    context := .obj [], messages := [], cart := [⟨1, 7, "t0"⟩], is_active := true }

/-- Store for the repeated-add counterexample. -/
def preloadedStore : SessionStore := [preloadedSession]

/-- A three-product demo catalog priced 10.00 / 20.00 / 30.00. -/
def demoCatalog : List Product :=
  [{ id := 1, name := "Silk Dress", price := 10, original_price := none,
     category := "Dresses", brand := "Aura", rating := some 4, images := ["a.jpg"] },
   { id := 2, name := "Leather Shoes", price := 20, original_price := none,
     category := "Shoes", brand := "Stride", rating := some 5, images := [] },
   { id := 3, name := "Tote", price := 30, original_price := none,
     category := "Accessories", brand := "Vela", rating := none, images := [] }]

/-- A session holding one unit each of products 1, 2, 3 and a dangling line
for the unknown product 99. -/
def demoSession : Session :=
  { session_id := "s2", customer_id := some 4, channel := "web",
    context := .obj [], messages := [], is_active := true,
    cart := [⟨1, 1, "a"⟩, ⟨2, 1, "b"⟩, ⟨3, 1, "c"⟩, ⟨99, 1, "d"⟩] }

/-- Store for the pricing and quantity-update witnesses. -/
def demoStore : SessionStore := [demoSession]

/-- A concrete recommendation entry. -/
def demoRec : Recommendation :=
  { product_id := 1, image := none, name := "Silk Dress", brand := some "Aura",
    price := 10, original_price := none, rating := some 4,
    reason := "bestseller", in_stock := true }

/-- Seven identical recommendations, more than any bounded channel cap. -/
def demoRecs : List Recommendation := List.replicate 7 demoRec

/-! ## Helper lemmas -/

lemma cart_any_of_contains (m : String) (h : containsKw m "cart" = true) :
    cartKeywords.any (fun w => containsKw m w) = true := by
  simp only [cartKeywords, List.any_cons, List.any_nil, Bool.or_eq_true]
  exact Or.inl h

lemma any_pid_iff (cart : List CartLine) (pid : Int) :
    cart.any (fun it => it.product_id == pid) = true ↔
      pid ∈ cart.map (fun l => l.product_id) := by
  simp only [List.any_eq_true, List.mem_map, beq_iff_eq]

lemma any_pid_eq_false (cart : List CartLine) (pid : Int)
    (h : pid ∉ cart.map (fun l => l.product_id)) :
    cart.any (fun it => it.product_id == pid) = false := by
  rw [Bool.eq_false_iff]
  intro hc
  exact h ((any_pid_iff cart pid).mp hc)

lemma bumpFirst_append_fresh (cart : List CartLine) (pid q1 q2 : Int) (now : String)
    (h : pid ∉ cart.map (fun l => l.product_id)) :
    bumpFirst (cart ++ [⟨pid, q1, now⟩]) pid q2 = cart ++ [⟨pid, q1 + q2, now⟩] := by
  induction cart with
  | nil => simp [bumpFirst]
  | cons l rest ih =>
      simp only [List.map_cons, List.mem_cons] at h
      push_neg at h
      have hb : (l.product_id == pid) = false := by
        rw [beq_eq_false_iff_ne]
        exact fun he => h.1 he.symm
      simp only [List.cons_append, bumpFirst, hb, Bool.false_eq_true, if_false]
      congr 1
      exact ih h.2

lemma filter_pid_append_fresh (cart : List CartLine) (l : CartLine) (pid : Int)
    (hl : l.product_id = pid) (h : pid ∉ cart.map (fun t => t.product_id)) :
    (cart ++ [l]).filter (fun t => t.product_id == pid) = [l] := by
  rw [List.filter_append]
  have h1 : cart.filter (fun t => t.product_id == pid) = [] := by
    rw [List.filter_eq_nil_iff]
    intro t ht hteq
    exact h (List.mem_map.mpr ⟨t, ht, beq_iff_eq.mp hteq⟩)
  have h2 : [l].filter (fun t => t.product_id == pid) = [l] := by
    simp [List.filter, hl]
  rw [h1, h2, List.nil_append]

lemma map_pid_bumpFirst (cart : List CartLine) (pid q : Int) :
    (bumpFirst cart pid q).map (fun l => l.product_id) =
      cart.map (fun l => l.product_id) := by
  induction cart with
  | nil => rfl
  | cons l rest ih =>
      by_cases hb : (l.product_id == pid) = true
      · simp [bumpFirst, hb]
      · simp only [Bool.not_eq_true] at hb
        simp [bumpFirst, hb, ih]

lemma addCartItem_nodup (cart : List CartLine) (pid q : Int) (now : String)
    (h : (cart.map (fun l => l.product_id)).Nodup) :
    ((addCartItem cart pid q now).map (fun l => l.product_id)).Nodup := by
  unfold addCartItem
  cases hany : cart.any (fun it => it.product_id == pid) with
  | true => simpa [map_pid_bumpFirst] using h
  | false =>
      have hnot : pid ∉ cart.map (fun l => l.product_id) := by
        intro hmem
        rw [(any_pid_iff cart pid).mpr hmem] at hany
        cases hany
      simp [List.nodup_append, h, hnot]

lemma findSession_setCartFirst (store : SessionStore) (sid : String) (s : Session)
    (c : List CartLine) (h : findSession store sid = some s) :
    findSession (setCartFirst store sid c) sid = some { s with cart := c } := by
  induction store with
  | nil => simp [findSession] at h
  | cons t rest ih =>
      cases hb : t.session_id == sid with
      | true =>
          simp only [findSession, List.find?, hb, Option.some.injEq] at h
          subst h
          simp [setCartFirst, hb, findSession, List.find?]
      | false =>
          simp only [findSession, List.find?, hb] at h
          simp only [setCartFirst, hb, Bool.false_eq_true, if_false, findSession,
            List.find?]
          exact ih h

lemma setCartFirst_self (store : SessionStore) (sid : String) (s : Session)
    (h : findSession store sid = some s) : setCartFirst store sid s.cart = store := by
  induction store with
  | nil => rfl
  | cons t rest ih =>
      cases hb : t.session_id == sid with
      | true =>
          simp only [findSession, List.find?, hb, Option.some.injEq] at h
          subst h
          rw [setCartFirst, if_pos hb]
      | false =>
          simp only [findSession, List.find?, hb] at h
          rw [setCartFirst, if_neg (by simp [hb]), ih h]

lemma addToCart_found (store : SessionStore) (sid : String) (s : Session)
    (pid q : Int) (now : String) (h : findSession store sid = some s) :
    addToCart store sid pid q now =
      (.ok true (addCartItem s.cart pid q now) (addCartItem s.cart pid q now).length
        (((addCartItem s.cart pid q now).map (fun it => it.quantity)).sum),
       setCartFirst store sid (addCartItem s.cart pid q now)) := by
  simp [addToCart, updateSessionCart, h]

lemma removeFromCart_found (store : SessionStore) (sid : String) (s : Session)
    (pid : Int) (h : findSession store sid = some s) :
    removeFromCart store sid pid =
      (.ok true (s.cart.filter (fun it => !(it.product_id == pid)))
        (s.cart.filter (fun it => !(it.product_id == pid))).length
        (((s.cart.filter (fun it => !(it.product_id == pid))).map
          (fun it => it.quantity)).sum),
       setCartFirst store sid (s.cart.filter (fun it => !(it.product_id == pid)))) := by
  simp [removeFromCart, updateSessionCart, h]

lemma updateCartQuantity_found (store : SessionStore) (sid : String) (s : Session)
    (pid q : Int) (h : findSession store sid = some s) :
    updateCartQuantity store sid pid q =
      (.ok true (setQtyFirst s.cart pid q) (setQtyFirst s.cart pid q).length
        (((setQtyFirst s.cart pid q).map (fun it => it.quantity)).sum),
       setCartFirst store sid (setQtyFirst s.cart pid q)) := by
  simp [updateCartQuantity, updateSessionCart, h]

lemma filter_pid_eq_self (cart : List CartLine) (pid : Int)
    (h : pid ∉ cart.map (fun l => l.product_id)) :
    cart.filter (fun it => !(it.product_id == pid)) = cart := by
  rw [List.filter_eq_self]
  intro t ht
  simp only [Bool.not_eq_eq_eq_not, Bool.not_true, beq_eq_false_iff_ne]
  intro he
  exact h (List.mem_map.mpr ⟨t, ht, he⟩)

lemma map_ite_qty_id (rest : List CartLine) (pid q : Int)
    (h : pid ∉ rest.map (fun l => l.product_id)) :
    rest.map (fun l => if l.product_id = pid then { l with quantity := q } else l)
      = rest := by
  induction rest with
  | nil => rfl
  | cons a t ih =>
      simp only [List.map_cons, List.mem_cons] at h
      push_neg at h
      rw [List.map_cons, if_neg (fun he => h.1 he.symm), ih h.2]

lemma setQtyFirst_nonpos (cart : List CartLine) (pid q : Int) (hq : q ≤ 0)
    (hnd : (cart.map (fun l => l.product_id)).Nodup) :
    setQtyFirst cart pid q = cart.filter (fun it => !(it.product_id == pid)) := by
  induction cart with
  | nil => rfl
  | cons l rest ih =>
      rw [List.map_cons, List.nodup_cons] at hnd
      cases hb : l.product_id == pid with
      | true =>
          have hpid : pid ∉ rest.map (fun t => t.product_id) := by
            rw [← beq_iff_eq.mp hb]; exact hnd.1
          rw [setQtyFirst, if_pos hb, if_pos hq, List.filter_cons_of_neg (by simp [hb]),
            filter_pid_eq_self rest pid hpid]
      | false =>
          rw [setQtyFirst, if_neg (by simp [hb]),
            List.filter_cons_of_pos (by simp [hb]), ih hnd.2]

lemma setQtyFirst_pos (cart : List CartLine) (pid q : Int) (hq : 0 < q)
    (hnd : (cart.map (fun l => l.product_id)).Nodup) :
    setQtyFirst cart pid q =
      cart.map (fun l => if l.product_id = pid then { l with quantity := q } else l) := by
  induction cart with
  | nil => rfl
  | cons l rest ih =>
      rw [List.map_cons, List.nodup_cons] at hnd
      cases hb : l.product_id == pid with
      | true =>
          have hpid : pid ∉ rest.map (fun t => t.product_id) := by
            rw [← beq_iff_eq.mp hb]; exact hnd.1
          rw [setQtyFirst, if_pos hb, if_neg (by omega), List.map_cons,
            if_pos (beq_iff_eq.mp hb), map_ite_qty_id rest pid q hpid]
      | false =>
          rw [setQtyFirst, if_neg (by simp [hb]), List.map_cons,
            if_neg (by simpa using hb), ih hnd.2]

lemma cartWithDetails_eq_filterMap (catalog : List Product) (cart : List CartLine) :
    cartWithDetails catalog cart = cart.filterMap (resolveLine catalog) := by
  induction cart with
  | nil => rfl
  | cons it rest ih =>
      rw [List.filterMap_cons]
      cases hf : catalog.find? (fun p => p.id == it.product_id) with
      | none => rw [cartWithDetails, hf, ih]; simp [resolveLine, hf]
      | some p => rw [cartWithDetails, hf, ih]; simp [resolveLine, hf]

lemma resolved_subtotal (catalog : List Product) (cart : List CartLine) :
    ∀ e ∈ cart.filterMap (resolveLine catalog),
      e.subtotal = e.price * (e.quantity : ℚ) := by
  intro e he
  rw [List.mem_filterMap] at he
  obtain ⟨it, _, hres⟩ := he
  unfold resolveLine at hres
  rw [Option.map_eq_some'] at hres
  obtain ⟨p, _, hmk⟩ := hres
  subst hmk
  rfl

lemma getCart_found (catalog : List Product) (store : SessionStore) (sid : String)
    (s : Session) (h : findSession store sid = some s) :
    getCart catalog store sid =
      (if s.cart.isEmpty then (.ok [] 0 0 0, store)
       else
        (.ok (cartWithDetails catalog s.cart) (cartWithDetails catalog s.cart).length
          (((cartWithDetails catalog s.cart).map (fun e => e.quantity)).sum)
          (round2 (((cartWithDetails catalog s.cart).map (fun e => e.subtotal)).sum)),
         store)) := by
  simp [getCart, h]

/-! ## Claim theorems -/

/-- C2, counterexample: on the exact input `"What's my order status, I need
help"` the classifier does *not* return `needs_help`, because `"order"` is in
the purchase keyword set, which is tested before the help set. -/
theorem detect_intent_order_status_not_help :
    detectIntent "What\x27s my order status, I need help" ≠ "needs_help" := by decide

/-- C2 (amended): the classifier applied to the exact input `"What's my order
status, I need help"` returns `purchase_intent`: the substring `"order"`
matches the purchase keyword set, which is checked before the help set (only
the cart set precedes it, and no cart keyword occurs in the input). -/
theorem detect_intent_order_status :
    detectIntent "What\x27s my order status, I need help" = "purchase_intent" := by decide

/-- C4: any input containing the substring `"cart"` (case-insensitively)
classifies as `view_cart`, whatever else it contains, and in general the
classifier agrees everywhere with the first-match evaluation of the ordered
priority table cart-viewing, purchase, browsing, help/question, greeting,
complaint, defaulting to `general`. -/
theorem detect_intent_priority (message : String) :
    (containsKw (lowerStr message) "cart" = true → detectIntent message = "view_cart")
    ∧ detectIntent message = classifyByTable (lowerStr message) priorityTable := by
  constructor
  · intro h
    simp [detectIntent, cart_any_of_contains (lowerStr message) h]
  · rfl

/-- C4, witness at the input `"add to cart please"`. -/
theorem detect_intent_priority_witness :
    containsKw (lowerStr "add to cart please") "cart" = true
    ∧ detectIntent "add to cart please" = "view_cart"
    ∧ detectIntent "add to cart please" =
        classifyByTable (lowerStr "add to cart please") priorityTable :=
  ⟨by decide, (detect_intent_priority "add to cart please").1 (by decide),
   (detect_intent_priority "add to cart please").2⟩

/-- C8: `get_cart` is read-only — for every catalog, session store and session
id the store after the call is identical to the store before it, even when
the priced view drops lines whose product does not resolve. -/
theorem getCart_preserves_store (catalog : List Product) (store : SessionStore)
    (sid : String) : (getCart catalog store sid).2 = store := by
  cases h : findSession store sid with
  | none => simp [getCart, h]
  | some s =>
      simp only [getCart, h]
      split <;> rfl

/-- C5, counterexample: for a session whose cart already holds product 1 with
quantity 7, `add(S,1,2); add(S,1,3)` leaves a single line of quantity 12, not
5 — the claim fails for sessions that already contain the product. -/
theorem addToCart_twice_preloaded :
    ((addToCart (addToCart preloadedStore "s1" 1 2 "t1").2 "s1" 1 3 "t2").1).cartLines
      = [⟨1, 12, "t0"⟩]
    ∧ ∀ l ∈ ((addToCart (addToCart preloadedStore "s1" 1 2 "t1").2 "s1" 1 3 "t2").1).cartLines,
        l.quantity ≠ 5 := by
  constructor
  · rfl
  · intro l hl
    rw [show ((addToCart (addToCart preloadedStore "s1" 1 2 "t1").2 "s1" 1 3 "t2").1).cartLines
          = [⟨1, 12, "t0"⟩] from rfl] at hl
    simp only [List.mem_singleton] at hl
    subst hl
    decide

/-- C5 (amended): for every existing session whose cart holds *no* line for
product P, `add(S,P,2); add(S,P,3)` yields success and exactly one line for P,
of quantity 5 and carrying the first add's insertion timestamp; moreover a
single add always preserves the at-most-one-line-per-product invariant
(a repeated add increments the existing line instead of appending).  For
sessions already holding P the two adds instead increment the existing
quantity by 5. -/
theorem addToCart_twice_sums (store : SessionStore) (sid : String) (s : Session)
    (pid : Int) (n1 n2 : String) (hfind : findSession store sid = some s)
    (hnotin : pid ∉ s.cart.map (fun l => l.product_id)) :
    ((addToCart (addToCart store sid pid 2 n1).2 sid pid 3 n2).1).success = true
    ∧ ((addToCart (addToCart store sid pid 2 n1).2 sid pid 3 n2).1).cartLines.filter
        (fun l => l.product_id == pid) = [⟨pid, 5, n1⟩] := by
  have hc1 : addCartItem s.cart pid 2 n1 = s.cart ++ [⟨pid, 2, n1⟩] := by
    unfold addCartItem
    rw [any_pid_eq_false s.cart pid hnotin]
    rfl
  have hstep1 := addToCart_found store sid s pid 2 n1 hfind
  have hfind2 : findSession (addToCart store sid pid 2 n1).2 sid
      = some { s with cart := s.cart ++ [⟨pid, 2, n1⟩] } := by
    rw [hstep1]
    rw [hc1]
    exact findSession_setCartFirst store sid s (s.cart ++ [⟨pid, 2, n1⟩]) hfind
  have hstep2 := addToCart_found (addToCart store sid pid 2 n1).2 sid
    { s with cart := s.cart ++ [⟨pid, 2, n1⟩] } pid 3 n2 hfind2
  have hany2 : (s.cart ++ [({ product_id := pid, quantity := 2, added_at := n1 } : CartLine)]).any
      (fun it => it.product_id == pid) = true := by
    rw [any_pid_iff, List.map_append]
    exact List.mem_append_right _ (by simp)
  have hc2 : addCartItem (s.cart ++ [⟨pid, 2, n1⟩]) pid 3 n2
      = s.cart ++ [⟨pid, 5, n1⟩] := by
    unfold addCartItem
    rw [hany2, if_pos rfl, bumpFirst_append_fresh s.cart pid 2 3 n1 hnotin]
    norm_num
  rw [hstep2]
  constructor
  · rfl
  · show (addCartItem (s.cart ++ [⟨pid, 2, n1⟩]) pid 3 n2).filter
        (fun l => l.product_id == pid) = [⟨pid, 5, n1⟩]
    rw [hc2]
    exact filter_pid_append_fresh s.cart ⟨pid, 5, n1⟩ pid rfl hnotin

/-- C5, witness: the amended statement applied to the empty-cart demo session
and product 1. -/
theorem addToCart_twice_sums_witness :
    findSession freshStore "s1" = some freshSession
    ∧ ((addToCart (addToCart freshStore "s1" 1 2 "t1").2 "s1" 1 3 "t2").1).success = true
    ∧ ((addToCart (addToCart freshStore "s1" 1 2 "t1").2 "s1" 1 3 "t2").1).cartLines.filter
        (fun l => l.product_id == 1) = [⟨1, 5, "t1"⟩] :=
  ⟨rfl, (addToCart_twice_sums freshStore "s1" freshSession 1 "t1" "t2" rfl (by decide)).1,
   (addToCart_twice_sums freshStore "s1" freshSession 1 "t1" "t2" rfl (by decide)).2⟩

/-- C7: for every existing session satisfying the one-line-per-product data
invariant, `update_cart_quantity` with quantity ≤ 0 is *extensionally the
same operation* as `remove_from_cart` (same returned dict, same written-back
store); with quantity > 0 it overwrites the matching line's quantity; and
`remove_from_cart` of an absent product returns the unchanged cart with
success, leaving the store untouched. -/
theorem updateCartQuantity_semantics (store : SessionStore) (sid : String)
    (s : Session) (pid q : Int) (hfind : findSession store sid = some s)
    (hnd : (s.cart.map (fun l => l.product_id)).Nodup) :
    (q ≤ 0 → updateCartQuantity store sid pid q = removeFromCart store sid pid)
    ∧ (0 < q → ((updateCartQuantity store sid pid q).1).cartLines
        = s.cart.map (fun l => if l.product_id = pid then { l with quantity := q } else l))
    ∧ (pid ∉ s.cart.map (fun l => l.product_id) →
        removeFromCart store sid pid
          = (.ok true s.cart s.cart.length ((s.cart.map (fun it => it.quantity)).sum),
             store)) := by
  refine ⟨?_, ?_, ?_⟩
  · intro hq
    rw [updateCartQuantity_found store sid s pid q hfind,
      removeFromCart_found store sid s pid hfind,
      setQtyFirst_nonpos s.cart pid q hq hnd]
  · intro hq
    rw [updateCartQuantity_found store sid s pid q hfind]
    show setQtyFirst s.cart pid q = _
    exact setQtyFirst_pos s.cart pid q hq hnd
  · intro hnotin
    rw [removeFromCart_found store sid s pid hfind,
      filter_pid_eq_self s.cart pid hnotin, setCartFirst_self store sid s hfind]

/-- C7, witness: on the demo session, setting product 2's quantity to 0
coincides with removing product 2, and removing the absent product 42 is a
successful no-op. -/
theorem updateCartQuantity_semantics_witness :
    findSession demoStore "s2" = some demoSession
    ∧ (demoSession.cart.map (fun l => l.product_id)).Nodup
    ∧ updateCartQuantity demoStore "s2" 2 0 = removeFromCart demoStore "s2" 2
    ∧ removeFromCart demoStore "s2" 42
        = (.ok true demoSession.cart demoSession.cart.length
            ((demoSession.cart.map (fun it => it.quantity)).sum), demoStore) :=
  ⟨rfl, by decide,
   (updateCartQuantity_semantics demoStore "s2" demoSession 2 0 rfl (by decide)).1
     (by decide),
   (updateCartQuantity_semantics demoStore "s2" demoSession 42 1 rfl (by decide)).2.2
     (by decide)⟩

/-- C10: `add_to_cart` validates nothing about the quantity — for every
existing session and *every* integer quantity, zero and negative included, it
reports success, and for a product not yet in the cart it appends a line
holding exactly the given quantity. -/
theorem addToCart_no_quantity_validation (store : SessionStore) (sid : String)
    (s : Session) (pid q : Int) (now : String)
    (hfind : findSession store sid = some s) :
    ((addToCart store sid pid q now).1).success = true
    ∧ (pid ∉ s.cart.map (fun l => l.product_id) →
        ((addToCart store sid pid q now).1).cartLines = s.cart ++ [⟨pid, q, now⟩]) := by
  rw [addToCart_found store sid s pid q now hfind]
  refine ⟨rfl, fun hnotin => ?_⟩
  show addCartItem s.cart pid q now = _
  unfold addCartItem
  rw [any_pid_eq_false s.cart pid hnotin]
  rfl

/-- C10, witness: adding unknown product 5 with quantity 0 succeeds and stores
a zero-quantity line; adding unknown product 6 with quantity -3 stores a
negative-quantity line. -/
theorem addToCart_no_quantity_validation_witness :
    ((addToCart demoStore "s2" 5 0 "t9").1).success = true
    ∧ ((addToCart demoStore "s2" 5 0 "t9").1).cartLines
        = demoSession.cart ++ [⟨5, 0, "t9"⟩]
    ∧ ((addToCart demoStore "s2" 6 (-3) "t9").1).cartLines
        = demoSession.cart ++ [⟨6, -3, "t9"⟩] :=
  ⟨(addToCart_no_quantity_validation demoStore "s2" demoSession 5 0 "t9" rfl).1,
   (addToCart_no_quantity_validation demoStore "s2" demoSession 5 0 "t9" rfl).2 (by decide),
   (addToCart_no_quantity_validation demoStore "s2" demoSession 6 (-3) "t9" rfl).2 (by decide)⟩

/-- C6: for every existing session, `get_cart` succeeds and returns exactly
the cart lines whose product resolves in the catalog (in cart order, priced
via `mkCartEntry`), with count the number of resolved lines, total quantity
their quantity sum, and subtotal the 2-decimal rounding of the sum of the
line subtotals; every returned entry satisfies subtotal = unit price ×
quantity, and unresolved lines appear nowhere. -/
theorem getCart_prices (catalog : List Product) (store : SessionStore)
    (sid : String) (s : Session) (hfind : findSession store sid = some s) :
    (getCart catalog store sid).1
      = .ok (s.cart.filterMap (resolveLine catalog))
          (s.cart.filterMap (resolveLine catalog)).length
          (((s.cart.filterMap (resolveLine catalog)).map (fun e => e.quantity)).sum)
          (round2 (((s.cart.filterMap (resolveLine catalog)).map
            (fun e => e.subtotal)).sum))
    ∧ ∀ e ∈ s.cart.filterMap (resolveLine catalog),
        e.subtotal = e.price * (e.quantity : ℚ) := by
  refine ⟨?_, resolved_subtotal catalog s.cart⟩
  rw [getCart_found catalog store sid s hfind]
  by_cases hemp : s.cart = []
  · rw [if_pos (by simp [hemp])]
    show CartViewResult.ok [] 0 0 0 = _
    norm_num [hemp, round2, roundHalfEven]
  · rw [if_neg (by simp [List.isEmpty_iff, hemp]), cartWithDetails_eq_filterMap]

/-- C6, witness: three resolving unit lines priced 10.00, 20.00, 30.00 plus a
dangling line for unknown product 99 give subtotal 60.00, count 3, total
quantity 3, with the dangling line dropped. -/
theorem getCart_prices_witness :
    findSession demoStore "s2" = some demoSession
    ∧ (getCart demoCatalog demoStore "s2").1
        = .ok (demoSession.cart.filterMap (resolveLine demoCatalog))
            (demoSession.cart.filterMap (resolveLine demoCatalog)).length
            (((demoSession.cart.filterMap (resolveLine demoCatalog)).map
              (fun e => e.quantity)).sum)
            (round2 (((demoSession.cart.filterMap (resolveLine demoCatalog)).map
              (fun e => e.subtotal)).sum))
    ∧ (getCart demoCatalog demoStore "s2").1
        = .ok [⟨1, "Silk Dress", 10, "Aura", some "a.jpg", 1, 10⟩,
               ⟨2, "Leather Shoes", 20, "Stride", none, 1, 20⟩,
               ⟨3, "Tote", 30, "Vela", none, 1, 30⟩] 3 3 60 := by
  have hmain := (getCart_prices demoCatalog demoStore "s2" demoSession rfl).1
  have hfm : demoSession.cart.filterMap (resolveLine demoCatalog)
      = [⟨1, "Silk Dress", 10, "Aura", some "a.jpg", 1, 10⟩,
         ⟨2, "Leather Shoes", 20, "Stride", none, 1, 20⟩,
         ⟨3, "Tote", 30, "Vela", none, 1, 30⟩] := by
    simp [demoSession, demoCatalog, resolveLine, mkCartEntry, List.find?]
  refine ⟨rfl, hmain, ?_⟩
  rw [hmain, hfm]
  norm_num [round2, roundHalfEven]

/-- C9: the web, messaging-text (WhatsApp) and kiosk (in-store) recommendation
formatters cap the rendered list at 6, 3 and 4 entries respectively, the
mobile formatter renders every supplied entry, and any channel tag whose
lowercasing is outside {web, whatsapp, instore, mobile} selects the web
adapter. -/
theorem channel_adapter_caps (recs : List Recommendation) (channel : String) :
    (webFormatRecommendations recs).length = min 6 recs.length
    ∧ whatsappFormatRecommendations recs = whatsappFormatRecommendations (recs.take 3)
    ∧ (instoreFormatRecommendations recs).length = min 4 recs.length
    ∧ (mobileFormatRecommendations recs).length = recs.length
    ∧ (lowerStr channel ∉ ["web", "whatsapp", "instore", "mobile"] →
        getChannelAdapter channel = .web) := by
  refine ⟨?_, ?_, ?_, ?_, ?_⟩
  · simp [webFormatRecommendations]
  · unfold whatsappFormatRecommendations
    rw [List.take_take]
    norm_num
  · simp [instoreFormatRecommendations]
  · simp [mobileFormatRecommendations]
  · intro h
    simp only [List.mem_cons, List.mem_singleton, not_or] at h
    obtain ⟨h1, h2, h3, h4, -⟩ := h
    have hb1 : (lowerStr channel == "web") = false := beq_eq_false_iff_ne.mpr h1
    have hb2 : (lowerStr channel == "whatsapp") = false := beq_eq_false_iff_ne.mpr h2
    have hb3 : (lowerStr channel == "instore") = false := beq_eq_false_iff_ne.mpr h3
    have hb4 : (lowerStr channel == "mobile") = false := beq_eq_false_iff_ne.mpr h4
    simp [getChannelAdapter, List.lookup, hb1, hb2, hb3, hb4]

/-- C9, witness: seven supplied recommendations and the unknown channel tag
`"sms"`. -/
theorem channel_adapter_caps_witness :
    lowerStr "sms" ∉ ["web", "whatsapp", "instore", "mobile"]
    ∧ (webFormatRecommendations demoRecs).length = min 6 demoRecs.length
    ∧ (instoreFormatRecommendations demoRecs).length = min 4 demoRecs.length
    ∧ getChannelAdapter "sms" = .web :=
  ⟨by decide, (channel_adapter_caps demoRecs "sms").1,
   (channel_adapter_caps demoRecs "sms").2.2.1,
   (channel_adapter_caps demoRecs "sms").2.2.2.2 (by decide)⟩

/-- C1: the inventory worker's success envelope stores the availability map
under the top-level key `"availability"`, but `_synthesize_response` reads
`inv_data.get("data", {}).get("availability", {})` — a key the worker never
writes — so the synthesized `inventory_status` is the empty map instead of
the worker's (non-empty) availability map: the documented verbatim copy never
happens. -/
theorem inventory_status_never_copied :
    sampleInventoryResult.lookup "success" = some (.bool true)
    ∧ sampleInventoryResult.lookup "availability"
        = some (.obj [("1", sampleAvailability)])
    ∧ (synthesizeResponse [] [] sampleSales sampleWorkerResults sampleCtx
        "2024-01-01T00:00:01").inventory_status = some (.obj [])
    ∧ Json.obj [("1", sampleAvailability)] ≠ Json.obj [] := by
  refine ⟨rfl, rfl, rfl, ?_⟩
  intro h
  rw [Json.obj.injEq] at h
  cases h

/-- C3, counterexample: `handle_conversation` performs the customer-record
lookup *before* entering `execute`'s try block, so a store failure there
escapes to the external caller as a raised exception instead of the apology
envelope — even though the pipeline itself would have succeeded. -/
theorem handleConversation_can_raise :
    handleConversation (fun _ => .error "database connection failed")
        (fun _ => .ok sampleOkResponse) "hello" (some 1) none []
      = .error "database connection failed" := rfl

/-- C3 (amended): any failure raised inside `execute`'s pipeline (intent
analysis, worker dispatch, synthesis) is converted by the catch-all into the
well-formed record carrying `success:false`, the generic apology and the raw
error string, and a successful pipeline is returned unchanged — but the
customer-record lookup that `handle_conversation` performs before invoking
`execute` sits outside the catch-all, so a failure there propagates to the
external caller as a raised exception (and hence also out of
`handle_channel_conversation`, which calls `handle_conversation` first). -/
theorem orchestrator_catchall_scope :
    (∀ (pipeline : TurnContext → Except String UnifiedResponse) (ctx : TurnContext)
       (e : String), pipeline ctx = .error e →
         orchestratorExecute pipeline ctx = .failure apologyMessage e)
    ∧ (∀ (pipeline : TurnContext → Except String UnifiedResponse) (ctx : TurnContext)
         (r : UnifiedResponse), pipeline ctx = .ok r →
           orchestratorExecute pipeline ctx = .normal r)
    ∧ (∀ (fetchCustomer : Int → Except String (Option CustomerInfo))
         (pipeline : TurnContext → Except String UnifiedResponse) (message : String)
         (cid : Int) (session_id : Option String) (cart_items : List Json)
         (err : String), cid ≠ 0 → fetchCustomer cid = .error err →
           handleConversation fetchCustomer pipeline message (some cid) session_id
             cart_items = .error err) := by
  refine ⟨?_, ?_, ?_⟩
  · intro pipeline ctx e h
    unfold orchestratorExecute
    rw [h]
  · intro pipeline ctx r h
    unfold orchestratorExecute
    rw [h]
  · intro fetchCustomer pipeline message cid session_id cart_items err hcid hfetch
    simp [handleConversation, hfetch, hcid]

/-- C3, witness: a pipeline failure yields the apology envelope with the raw
error string, and a failing customer fetch with customer id 2 escapes
`handle_conversation`. -/
theorem orchestrator_catchall_scope_witness :
    orchestratorExecute (fun _ => .error "boom") sampleCtx
      = .failure apologyMessage "boom"
    ∧ orchestratorExecute (fun _ => .ok sampleOkResponse) sampleCtx
      = .normal sampleOkResponse
    ∧ handleConversation (fun _ => .error "db down")
        (fun _ => .ok sampleOkResponse) "hi" (some 2) none []
      = .error "db down" :=
  ⟨orchestrator_catchall_scope.1 (fun _ => .error "boom") sampleCtx "boom" rfl,
   orchestrator_catchall_scope.2.1 (fun _ => .ok sampleOkResponse) sampleCtx
     sampleOkResponse rfl,
   orchestrator_catchall_scope.2.2 (fun _ => .error "db down")
     (fun _ => .ok sampleOkResponse) "hi" 2 none [] "db down" (by decide) rfl⟩
